import Mathlib

/-!
Verification of `contractlib/snip20lib.py`, a thin adapter that builds JSON
request envelopes for a SNIP-20 token contract and forwards them to an
external `secretlib` backend.

The embedding models:
* JSON values (`Json`) together with a faithful model of Python's
  `json.dumps` with its default separators and `ensure_ascii` escaping, and
  of `json.loads` (restricted to integer numerals; floats are out of scope
  for the messages this library builds or parses).
* the external collaborators missing from the repository snapshot
  (`secretlib` and the `Contract` base class) as backend oracles, so that
  each adapter method is a pure function of the oracle, the token instance
  and its arguments.
-/

/-- A JSON value.  Object fields are kept in insertion order, matching a
Python `dict`. -/
inductive Json where
  | null
  | bool (b : Bool)
  | num (n : Int)
  | str (s : String)
  | arr (elems : List Json)
  | obj (fields : List (String × Json))
deriving Repr

/-- Lowercase hexadecimal digit, as produced by Python's `%04x` formatting
inside `\uXXXX` escapes. -/
def hexDigit (n : Nat) : Char :=
  if n < 10 then Char.ofNat (48 + n) else Char.ofNat (87 + n)

/-- A `\uXXXX` escape with four lowercase hex digits. -/
def uEscape (n : Nat) : String :=
  "\\u" ++ String.mk [hexDigit (n / 4096 % 16), hexDigit (n / 256 % 16),
                      hexDigit (n / 16 % 16), hexDigit (n % 16)]

/-- How Python's `json.dumps` (with its default `ensure_ascii=True`) renders
one character inside a string literal: `"` and `\` get a backslash escape,
the common control characters get their short escapes, every other
character outside the printable ASCII range `0x20`–`0x7e` becomes `\uXXXX`
(a supplementary-plane character becomes a surrogate pair). -/
def escapeChar (c : Char) : String :=
  if c = '"' then "\\\""
  else if c = '\\' then "\\\\"
  else if c = '\n' then "\\n"
  else if c = '\t' then "\\t"
  else if c = '\r' then "\\r"
  else if c.toNat = 8 then "\\b"
  else if c.toNat = 12 then "\\f"
  else if c.toNat < 32 then uEscape c.toNat
  else if c.toNat < 127 then String.singleton c
  else if c.toNat ≤ 65535 then uEscape c.toNat
  else
    let v := c.toNat - 65536
    uEscape (55296 + v / 1024) ++ uEscape (56320 + v % 1024)

/-- A JSON string literal for `s`, double quotes included. -/
def dumpString (s : String) : String :=
  "\"" ++ String.join (s.toList.map escapeChar) ++ "\""

mutual

/-- Python's `json.dumps` with its default separators `", "` and `": "`. -/
def Json.dumps : Json → String
  | .null => "null"
  | .bool true => "true"
  | .bool false => "false"
  | .num n => toString n
  | .str s => dumpString s
  | .arr xs => "[" ++ dumpsElems xs ++ "]"
  | .obj fs => "\x7b" ++ dumpsFields fs ++ "\x7d"

/-- Comma-separated rendering of array elements. -/
def dumpsElems : List Json → String
  | [] => ""
  | [x] => Json.dumps x
  | x :: y :: rest => Json.dumps x ++ ", " ++ dumpsElems (y :: rest)

/-- Comma-separated rendering of object fields. -/
def dumpsFields : List (String × Json) → String
  | [] => ""
  | [(k, v)] => dumpString k ++ ": " ++ Json.dumps v
  | (k, v) :: f :: rest => dumpString k ++ ": " ++ Json.dumps v ++ ", " ++ dumpsFields (f :: rest)

end

example : Json.dumps (.obj [("mint", .obj [("recipient", .str "bob"), ("amount", .str "100")])])
    = "\x7b\"mint\": \x7b\"recipient\": \"bob\", \"amount\": \"100\"\x7d\x7d" := by decide

example : Json.dumps (.obj [("deposit", .obj [])]) = "\x7b\"deposit\": \x7b\x7d\x7d" := by decide

example : Json.dumps (.obj [("set_minters", .obj [("minters", .arr [])])])
    = "\x7b\"set_minters\": \x7b\"minters\": []\x7d\x7d" := by decide

/-- Drop leading JSON whitespace. -/
def skipWs : List Char → List Char
  | c :: cs => if c = ' ' ∨ c = '\t' ∨ c = '\n' ∨ c = '\r' then skipWs cs else c :: cs
  | [] => []

/-- Value of one hexadecimal digit. -/
def hexVal (c : Char) : Option Nat :=
  if '0' ≤ c ∧ c ≤ '9' then some (c.toNat - 48)
  else if 'a' ≤ c ∧ c ≤ 'f' then some (c.toNat - 87)
  else if 'A' ≤ c ∧ c ≤ 'F' then some (c.toNat - 55)
  else none

/-- Value of a four-digit hexadecimal escape. -/
def hex4 (a b c d : Char) : Option Nat := do
  let va ← hexVal a
  let vb ← hexVal b
  let vc ← hexVal c
  let vd ← hexVal d
  pure (va * 4096 + vb * 256 + vc * 16 + vd)

/-- Python `dict` insertion: an existing key keeps its position and gets the
new value, a new key is appended. -/
def insertKey : List (String × Json) → String → Json → List (String × Json)
  | [], k, v => [(k, v)]
  | (k0, v0) :: rest, k, v =>
      if k0 = k then (k0, v) :: rest else (k0, v0) :: insertKey rest k v

/-- Parse the body of a JSON string literal (after the opening quote),
handling the backslash escapes accepted by Python's `json.loads` and
combining surrogate pairs; a lone surrogate is rejected. -/
def parseStringBody : Nat → List Char → List Char → Option (String × List Char)
  | 0, _, _ => none
  | fuel+1, acc, cs =>
    match cs with
    | [] => none
    | '"' :: rest => some (String.mk acc.reverse, rest)
    | '\\' :: esc =>
      match esc with
      | 'u' :: a :: b :: c :: d :: rest =>
        (hex4 a b c d).bind fun n =>
          if 55296 ≤ n ∧ n < 56320 then
            match rest with
            | '\\' :: 'u' :: a2 :: b2 :: c2 :: d2 :: rest2 =>
              (hex4 a2 b2 c2 d2).bind fun m =>
                if 56320 ≤ m ∧ m < 57344 then
                  parseStringBody fuel
                    (Char.ofNat (65536 + (n - 55296) * 1024 + (m - 56320)) :: acc) rest2
                else none
            | _ => none
          else if 56320 ≤ n ∧ n < 57344 then none
          else parseStringBody fuel (Char.ofNat n :: acc) rest
      | e :: rest =>
          if e = '"' then parseStringBody fuel ('"' :: acc) rest
          else if e = '\\' then parseStringBody fuel ('\\' :: acc) rest
          else if e = '/' then parseStringBody fuel ('/' :: acc) rest
          else if e = 'b' then parseStringBody fuel (Char.ofNat 8 :: acc) rest
          else if e = 'f' then parseStringBody fuel (Char.ofNat 12 :: acc) rest
          else if e = 'n' then parseStringBody fuel ('\n' :: acc) rest
          else if e = 'r' then parseStringBody fuel ('\r' :: acc) rest
          else if e = 't' then parseStringBody fuel ('\t' :: acc) rest
          else none
      | [] => none
    | c :: rest => if c.toNat < 32 then none else parseStringBody fuel (c :: acc) rest

/-- Split off a maximal run of decimal digits. -/
def takeDigits : List Char → List Char × List Char
  | c :: cs =>
      if '0' ≤ c ∧ c ≤ '9' then
        let (ds, r) := takeDigits cs
        (c :: ds, r)
      else ([], c :: cs)
  | [] => ([], [])

/-- Numeric value of a digit run. -/
def digitsToNat (ds : List Char) : Nat :=
  ds.foldl (fun acc c => acc * 10 + (c.toNat - 48)) 0

/-- Parse a JSON natural numeral (no redundant leading zero). -/
def parseJsonNat (cs : List Char) : Option (Nat × List Char) :=
  match takeDigits cs with
  | ([], _) => none
  | (ds, rest) =>
      if ds.head? = some '0' ∧ 1 < ds.length then none
      else some (digitsToNat ds, rest)

mutual

/-- Parse one JSON value.  Numbers are restricted to integers: the messages
and responses this library exchanges carry amounts as strings, never as
floating-point numerals. -/
def parseValue : Nat → List Char → Option (Json × List Char)
  | 0, _ => none
  | fuel+1, cs =>
    match cs with
    | '{' :: rest =>
      (match skipWs rest with
       | '}' :: rest2 => some (.obj [], rest2)
       | cs2 => (parseMembers fuel [] cs2).bind fun (fs, rest2) => some (.obj fs, rest2))
    | '[' :: rest =>
      (match skipWs rest with
       | ']' :: rest2 => some (.arr [], rest2)
       | cs2 => (parseElems fuel cs2).bind fun (xs, rest2) => some (.arr xs, rest2))
    | '"' :: rest =>
        (parseStringBody (rest.length + 1) [] rest).bind fun (s, rest2) =>
          some (.str s, rest2)
    | 't' :: 'r' :: 'u' :: 'e' :: rest => some (.bool true, rest)
    | 'f' :: 'a' :: 'l' :: 's' :: 'e' :: rest => some (.bool false, rest)
    | 'n' :: 'u' :: 'l' :: 'l' :: rest => some (.null, rest)
    | '-' :: rest =>
        (parseJsonNat rest).bind fun (n, rest2) => some (.num (-(n : Int)), rest2)
    | other =>
        (parseJsonNat other).bind fun (n, rest2) => some (.num (n : Int), rest2)

/-- Parse the members of a JSON object (after any leading whitespace),
accumulating them with Python `dict` semantics. -/
def parseMembers : Nat → List (String × Json) → List Char →
    Option (List (String × Json) × List Char)
  | 0, _, _ => none
  | fuel+1, acc, cs =>
    match cs with
    | '"' :: rest =>
        (parseStringBody (rest.length + 1) [] rest).bind fun (k, rest2) =>
          match skipWs rest2 with
          | ':' :: rest3 =>
              (parseValue fuel (skipWs rest3)).bind fun (v, rest4) =>
                match skipWs rest4 with
                | ',' :: rest5 => parseMembers fuel (insertKey acc k v) (skipWs rest5)
                | '}' :: rest5 => some (insertKey acc k v, rest5)
                | _ => none
          | _ => none
    | _ => none

/-- Parse the elements of a JSON array. -/
def parseElems : Nat → List Char → Option (List Json × List Char)
  | 0, _ => none
  | fuel+1, cs =>
      (parseValue fuel cs).bind fun (v, rest) =>
        match skipWs rest with
        | ',' :: rest2 =>
            (parseElems fuel (skipWs rest2)).bind fun (xs, rest3) =>
              some (v :: xs, rest3)
        | ']' :: rest2 => some ([v], rest2)
        | _ => none

end

/-- Modelled from the spec: Python's standard-library `json.loads` (the
`json` module lives outside this repository).  Parses a complete JSON
document, `none` on any parse error, numbers restricted to integers. -/
def Json.loads (s : String) : Option Json :=
  match parseValue (s.length + 1) (skipWs s.toList) with
  | some (v, rest) => if skipWs rest = [] then some v else none
  | none => none

/-- First-match association-list lookup. -/
def lookupField : List (String × Json) → String → Option Json
  | [], _ => none
  | (k0, v) :: rest, k => if k0 = k then some v else lookupField rest k

/-- Python subscripting `j[k]` on a parsed JSON value: the value for the key
when `j` is an object containing it; otherwise Python raises a
`KeyError`/`TypeError`, modelled as `none`. -/
def Json.index (j : Json) (k : String) : Option Json :=
  match j with
  | .obj fs => lookupField fs k
  | _ => none

/-- The underlying string when the value is a JSON string; otherwise `none`
(Python's `json.loads` raises a `TypeError` on a non-string argument). -/
def Json.asStr : Json → Option String
  | .str s => some s
  | _ => none

example : Json.loads "\x7b\"create_viewing_key\": \x7b\"key\": \"api_key_x\"\x7d\x7d"
    = some (.obj [("create_viewing_key", .obj [("key", .str "api_key_x")])]) := rfl

example : Json.loads "not json" = none := rfl

example : Json.loads (Json.dumps (.obj [("a", .arr [.num 1, .num (-2), .bool true, .null]),
    ("b", .str "x\ny")])) = some (.obj [("a", .arr [.num 1, .num (-2), .bool true, .null]),
    ("b", .str "x\ny")]) := rfl

/-- The arguments of one `secretlib.execute_contract` call: contract
address, serialized message, signing sender, backend target, and the
optional native-currency transaction value. -/
structure ExecCall where
  address : String
  msg : String
  sender : String
  backend : String
  amount : Option Int
deriving Repr, DecidableEq

/-- The arguments of one `secretlib.query_contract` call. -/
structure QueryCall where
  address : String
  msg : String
deriving Repr, DecidableEq

/-- Modelled from the spec: `secretlib.execute_contract` (the `secretlib`
module is imported by `snip20lib.py` but absent from the snapshot).  It
signs and submits the message as a transaction from `sender` against the
given backend and returns the backend's JSON response; we model the whole
round trip by an oracle `env` from the submitted call to the response. -/
def secretlib.execute_contract (env : ExecCall → Json)
    (address msg sender backend : String) (amount : Option Int) : Json :=
  env ⟨address, msg, sender, backend, amount⟩

/-- Modelled from the spec: `secretlib.query_contract` executes a read-only
query against the node and returns its JSON response, modelled by an oracle
`qenv` from the submitted query to the response. -/
def secretlib.query_contract (qenv : QueryCall → Json) (address msg : String) : Json :=
  qenv ⟨address, msg⟩

/-- The arguments of one contract deployment. -/
structure DeployCall where
  contract : String
  initMsg : String
  label : String
  admin : String
  uploader : String
  gas : String
  backend : String
deriving Repr, DecidableEq

/-- Modelled from the spec: the `Contract` base class (imported by
`snip20lib.py` but absent from the snapshot) handles deployment/upload
bookkeeping: it submits the initialization payload to the deployment
backend once at construction time and records the resulting contract
address together with the parameters of the call; the instance is immutable
thereafter from this library's perspective. -/
structure Contract where
  contract : String
  initMsg : String
  label : String
  admin : String
  uploader : String
  gas : String
  backend : String
  address : String
deriving Repr, DecidableEq

/-- Modelled from the spec: `Contract.__init__`, with the deployment
backend's address assignment modelled by the oracle `deploy`. -/
def Contract.init (deploy : DeployCall → String)
    (contract initMsg label admin uploader gas backend : String) : Contract :=
  { contract := contract, initMsg := initMsg, label := label, admin := admin,
    uploader := uploader, gas := gas, backend := backend,
    address := deploy ⟨contract, initMsg, label, admin, uploader, gas, backend⟩ }

/-- The `SNIP20` adapter: the base `Contract` bookkeeping plus the
`view_key` attribute set (to `""`) in `SNIP20.__init__`. -/
structure SNIP20 extends Contract where
  view_key : String
deriving Repr, DecidableEq

/-- `SNIP20.__init__`: builds the JSON initialization payload from the
token metadata and the feature-flag config and delegates deployment to
`Contract.__init__`. -/
def SNIP20.init (deploy : DeployCall → String) (label name symbol : String)
    (decimals : Int) (seed : String)
    (public_total_supply enable_deposit enable_redeem enable_mint enable_burn : Bool)
    (contract admin uploader gas backend : String) : SNIP20 :=
  let view_key := ""
  let initMsg := Json.dumps (.obj
    [("name", .str name), ("symbol", .str symbol), ("decimals", .num decimals),
     ("prng_seed", .str seed),
     ("config", .obj
       [("public_total_supply", .bool public_total_supply),
        ("enable_deposit", .bool enable_deposit),
        ("enable_redeem", .bool enable_redeem),
        ("enable_mint", .bool enable_mint),
        ("enable_burn", .bool enable_burn)])])
  { toContract := Contract.init deploy contract initMsg label admin uploader gas backend,
    view_key := view_key }

/-- `SNIP20.set_minters`: builds `{"set_minters": {"minters": accounts}}`,
executes it as `self.admin` and returns the raw response.  Methods are
modelled as state transformers on the instance so that (the absence of)
attribute mutation is part of the embedding. -/
def SNIP20.set_minters (env : ExecCall → Json) (t : SNIP20)
    (accounts : List String) : SNIP20 × Json :=
  let msg := Json.dumps (.obj [("set_minters", .obj [("minters", .arr (accounts.map .str))])])
  (t, secretlib.execute_contract env t.address msg t.admin t.backend none)

/-- `SNIP20.deposit`: builds the constant `{"deposit": {}}`, executes it as
`account` with `amount` passed as the transaction value argument. -/
def SNIP20.deposit (env : ExecCall → Json) (t : SNIP20)
    (account : String) (amount : Int) : SNIP20 × Json :=
  let msg := Json.dumps (.obj [("deposit", .obj [])])
  (t, secretlib.execute_contract env t.address msg account t.backend (some amount))

/-- `SNIP20.mint`: builds `{"mint": {"recipient": recipient, "amount":
str(amount)}}` and executes it as `self.admin`. -/
def SNIP20.mint (env : ExecCall → Json) (t : SNIP20)
    (recipient : String) (amount : Int) : SNIP20 × Json :=
  let msg := Json.dumps (.obj
    [("mint", .obj [("recipient", .str recipient), ("amount", .str (toString amount))])])
  (t, secretlib.execute_contract env t.address msg t.admin t.backend none)

/-- `SNIP20.send`: builds `{"send": {"recipient": recipient, "amount":
str(amount)}}` and executes it as `account`. -/
def SNIP20.send (env : ExecCall → Json) (t : SNIP20)
    (account recipient : String) (amount : Int) : SNIP20 × Json :=
  let msg := Json.dumps (.obj
    [("send", .obj [("recipient", .str recipient), ("amount", .str (toString amount))])])
  (t, secretlib.execute_contract env t.address msg account t.backend none)

/-- `SNIP20.set_view_key`: builds `{"create_viewing_key": {"entropy":
entropy}}`, executes it as `account`, and returns
`json.loads(response["output_data_as_string"])["create_viewing_key"]["key"]`;
each failing subscript or parse (`none`) is an uncaught Python exception. -/
def SNIP20.set_view_key (env : ExecCall → Json) (t : SNIP20)
    (account entropy : String) : SNIP20 × Option Json :=
  let msg := Json.dumps (.obj [("create_viewing_key", .obj [("entropy", .str entropy)])])
  (t, ((secretlib.execute_contract env t.address msg account t.backend none).index
        "output_data_as_string").bind fun out =>
      out.asStr.bind fun s =>
        (Json.loads s).bind fun parsed =>
          (parsed.index "create_viewing_key").bind fun cvk =>
            cvk.index "key")

/-- `SNIP20.get_balance`: builds `{"balance": {"key": password, "address":
address}}`, queries the contract and returns
`response["balance"]["amount"]`; a failing subscript (`none`) is an
uncaught Python exception. -/
def SNIP20.get_balance (qenv : QueryCall → Json) (t : SNIP20)
    (address password : String) : SNIP20 × Option Json :=
  let msg := Json.dumps (.obj [("balance", .obj [("key", .str password), ("address", .str address)])])
  (t, ((secretlib.query_contract qenv t.address msg).index "balance").bind fun b =>
      b.index "amount")

/-- The exact `ExecCall` that `set_view_key` submits: the
`create_viewing_key` message built from the entropy, sent by `account`. -/
def cvkCall (t : SNIP20) (account entropy : String) : ExecCall :=
  ⟨t.address, Json.dumps (.obj [("create_viewing_key", .obj [("entropy", .str entropy)])]),
   account, t.backend, none⟩

/-- The response unwrapping `set_view_key` performs:
`json.loads(response["output_data_as_string"])["create_viewing_key"]["key"]`,
with every structural failure surfacing as `none`. -/
def viewKeyUnwrap (resp : Json) : Option Json :=
  (resp.index "output_data_as_string").bind fun out =>
    out.asStr.bind fun s =>
      (Json.loads s).bind fun parsed =>
        (parsed.index "create_viewing_key").bind fun cvk =>
          cvk.index "key"

/-- Substring test on character lists (is `needle` a contiguous infix of
`hay`?). -/
def containsChars (needle : List Char) : List Char → Bool
  | [] => needle.isEmpty
  | c :: cs => needle.isPrefixOf (c :: cs) || containsChars needle cs

/-- A fixed deployment oracle for concrete test instances. -/
def deploy0 : DeployCall → String := fun _ => "secret1xyz"

/-- A concrete token instance, deployed with the constructor's default
arguments from the source. -/
def token0 : SNIP20 :=
  SNIP20.init deploy0 "label0" "token" "TKN" 3 "cGFzc3dvcmQ=" false false false false false
    "snip20.wasm.gz" "a" "a" "10000000" "test"

/-- A well-shaped `execute_contract` response for `create_viewing_key`. -/
def resp0 : Json :=
  .obj [("output_data_as_string", .str "\x7b\"create_viewing_key\": \x7b\"key\": \"api_key_0\"\x7d\x7d")]

/-- C1: `set_view_key` submits `{"create_viewing_key": {"entropy": entropy}}`
with the given account as sender and returns the value at key path
`["create_viewing_key"]["key"]` of the JSON parsed from the response's
`"output_data_as_string"` field; a missing key or an unparseable payload at
any stage makes the call fail with an unhandled structural error (`none`),
and no other failure handling occurs. -/
theorem set_view_key_extraction (env : ExecCall → Json) (t : SNIP20) (account entropy : String) :
    (SNIP20.set_view_key env t account entropy).2 = viewKeyUnwrap (env (cvkCall t account entropy))
    ∧ (∀ resp : Json, resp.index "output_data_as_string" = none → viewKeyUnwrap resp = none)
    ∧ (∀ resp out : Json, resp.index "output_data_as_string" = some out → out.asStr = none →
        viewKeyUnwrap resp = none)
    ∧ (∀ (resp out : Json) (s : String), resp.index "output_data_as_string" = some out →
        out.asStr = some s → Json.loads s = none → viewKeyUnwrap resp = none)
    ∧ (∀ (resp out : Json) (s : String) (parsed : Json),
        resp.index "output_data_as_string" = some out → out.asStr = some s →
        Json.loads s = some parsed → parsed.index "create_viewing_key" = none →
        viewKeyUnwrap resp = none)
    ∧ (∀ (resp out : Json) (s : String) (parsed cvk : Json),
        resp.index "output_data_as_string" = some out → out.asStr = some s →
        Json.loads s = some parsed → parsed.index "create_viewing_key" = some cvk →
        cvk.index "key" = none → viewKeyUnwrap resp = none)
    ∧ (∀ (resp out : Json) (s : String) (parsed cvk k : Json),
        resp.index "output_data_as_string" = some out → out.asStr = some s →
        Json.loads s = some parsed → parsed.index "create_viewing_key" = some cvk →
        cvk.index "key" = some k → viewKeyUnwrap resp = some k) := by
  refine ⟨rfl, ?_, ?_, ?_, ?_, ?_, ?_⟩ <;> (intros; simp_all [viewKeyUnwrap])

/-- Witness for C1: on a concrete instance and a backend answering with a
well-shaped response, `set_view_key` returns the nested key. -/
theorem set_view_key_extraction_witness :
    (SNIP20.set_view_key (fun _ => resp0) token0 "a" "entropy0").2 = some (.str "api_key_0") := by
  have h := set_view_key_extraction (fun _ => resp0) token0 "a" "entropy0"
  rw [h.1]
  exact h.2.2.2.2.2.2 resp0 (.str "\x7b\"create_viewing_key\": \x7b\"key\": \"api_key_0\"\x7d\x7d")
    "\x7b\"create_viewing_key\": \x7b\"key\": \"api_key_0\"\x7d\x7d"
    (.obj [("create_viewing_key", .obj [("key", .str "api_key_0")])])
    (.obj [("key", .str "api_key_0")]) (.str "api_key_0") rfl rfl rfl rfl rfl

/-- C2: `get_balance` submits the query
`{"balance": {"key": password, "address": address}}` and returns exactly the
value at key path `["balance"]["amount"]` of the response; if either key is
missing the call fails with an unhandled structural error (`none`)
propagated to the caller. -/
theorem get_balance_extraction (qenv : QueryCall → Json) (t : SNIP20)
    (address password : String) :
    (SNIP20.get_balance qenv t address password).2 =
      ((qenv ⟨t.address,
          Json.dumps (.obj [("balance", .obj [("key", .str password),
            ("address", .str address)])])⟩).index "balance").bind (fun b => b.index "amount")
    ∧ (∀ resp : Json, resp.index "balance" = none →
        (resp.index "balance").bind (fun b => b.index "amount") = none)
    ∧ (∀ resp b : Json, resp.index "balance" = some b → b.index "amount" = none →
        (resp.index "balance").bind (fun b => b.index "amount") = none)
    ∧ (∀ resp b v : Json, resp.index "balance" = some b → b.index "amount" = some v →
        (resp.index "balance").bind (fun b => b.index "amount") = some v) := by
  refine ⟨rfl, ?_, ?_, ?_⟩ <;> (intros; simp_all)

/-- Witness for C2: on a concrete instance and a backend answering with a
well-shaped response, `get_balance` returns the amount. -/
theorem get_balance_extraction_witness :
    (SNIP20.get_balance (fun _ => .obj [("balance", .obj [("amount", .str "123")])])
      token0 "addr_b" "vk").2 = some (.str "123") := by
  have h := get_balance_extraction
    (fun _ => .obj [("balance", .obj [("amount", .str "123")])]) token0 "addr_b" "vk"
  rw [h.1]
  exact h.2.2.2 (.obj [("balance", .obj [("amount", .str "123")])])
    (.obj [("amount", .str "123")]) (.str "123") rfl rfl

/-- C3: `mint` submits a request whose single top-level key is `"mint"`,
with `recipient` the given recipient and `amount` the string coercion
`str(amount)` of the given amount (for amount 100 the serialized request
carries the literal string `"100"`), signed by the administrative account
`self.admin`, not by the recipient. -/
theorem mint_request_spec (env : ExecCall → Json) (t : SNIP20)
    (recipient : String) (amount : Int) :
    SNIP20.mint env t recipient amount =
      (t, env ⟨t.address,
        Json.dumps (.obj [("mint", .obj [("recipient", .str recipient),
          ("amount", .str (toString amount))])]),
        t.admin, t.backend, none⟩)
    ∧ Json.dumps (.obj [("mint", .obj [("recipient", .str "bob"),
        ("amount", .str (toString (100 : Int)))])])
      = "\x7b\"mint\": \x7b\"recipient\": \"bob\", \"amount\": \"100\"\x7d\x7d" :=
  ⟨rfl, by decide⟩

/-- C4: `send` submits a request keyed `"send"` whose parameter object holds
exactly `recipient` and `amount = str(amount)` — the source account appears
nowhere in the message body — signed by the source account; with amount 5
the amount field is the literal string `"5"`. -/
theorem send_request_spec (env : ExecCall → Json) (t : SNIP20)
    (account recipient : String) (amount : Int) :
    SNIP20.send env t account recipient amount =
      (t, env ⟨t.address,
        Json.dumps (.obj [("send", .obj [("recipient", .str recipient),
          ("amount", .str (toString amount))])]),
        account, t.backend, none⟩)
    ∧ Json.dumps (.obj [("send", .obj [("recipient", .str "B"),
        ("amount", .str (toString (5 : Int)))])])
      = "\x7b\"send\": \x7b\"recipient\": \"B\", \"amount\": \"5\"\x7d\x7d" :=
  ⟨rfl, by decide⟩

/-- C5: `deposit` submits the constant message `{"deposit": {}}` — an empty
parameter object regardless of the arguments — with the given account as
sender and the amount passed to the executor as the transaction value
argument, not as a field of the JSON message. -/
theorem deposit_request_spec (env : ExecCall → Json) (t : SNIP20)
    (account : String) (amount : Int) :
    SNIP20.deposit env t account amount =
      (t, env ⟨t.address, "\x7b\"deposit\": \x7b\x7d\x7d", account, t.backend, some amount⟩) := by
  have hmsg : Json.dumps (.obj [("deposit", .obj [])]) = "\x7b\"deposit\": \x7b\x7d\x7d" := by decide
  simp only [SNIP20.deposit, secretlib.execute_contract, hmsg]

/-- C6: `set_minters` submits `{"set_minters": {"minters": accounts}}` with
the account list embedded unmodified (no validation of contents or
emptiness), signed by the administrative account, and returns the backend's
response unchanged. -/
theorem set_minters_request_spec (env : ExecCall → Json) (t : SNIP20)
    (accounts : List String) :
    SNIP20.set_minters env t accounts =
      (t, env ⟨t.address,
        Json.dumps (.obj [("set_minters", .obj [("minters", .arr (accounts.map .str))])]),
        t.admin, t.backend, none⟩)
    ∧ Json.dumps (.obj [("set_minters", .obj [("minters", .arr (([] : List String).map .str))])])
      = "\x7b\"set_minters\": \x7b\"minters\": []\x7d\x7d" :=
  ⟨rfl, by decide⟩

/-- A concrete token instance with distinctive gas and backend arguments,
for inspecting the initialization payload. -/
def token7 : SNIP20 :=
  SNIP20.init deploy0 "lbl" "tok" "TKN" 3 "seedv" true false true false true
    "c.wasm" "adm" "up" "31337433" "backend_z"

set_option maxRecDepth 8192 in
/-- Counterexample to C7: the gas limit (`"31337433"`) and the deployment
backend target (`"backend_z"`) given to the constructor appear nowhere in
the JSON initialization payload — the payload holds only the token metadata
and the config flags; gas and backend are passed to the deployment call
alongside the payload, not inside it. -/
theorem init_payload_omits_gas_backend :
    token7.initMsg =
      "\x7b\"name\": \"tok\", \"symbol\": \"TKN\", \"decimals\": 3, \"prng_seed\": \"seedv\", \"config\": \x7b\"public_total_supply\": true, \"enable_deposit\": false, \"enable_redeem\": true, \"enable_mint\": false, \"enable_burn\": true\x7d\x7d"
    ∧ containsChars "31337433".toList token7.initMsg.toList = false
    ∧ containsChars "backend_z".toList token7.initMsg.toList = false := by
  refine ⟨by decide, by decide, by decide⟩

/-- C7 (amended): the token metadata (name, symbol, decimals, seed as
`prng_seed`) and the five feature flags map directly into the JSON
initialization payload; the contract file, label, admin, uploader, gas
limit and deployment backend target are passed to the deployment call
alongside that payload, not inside it, and are recorded on the instance. -/
theorem init_payload_contents (deploy : DeployCall → String)
    (label name symbol : String) (decimals : Int) (seed : String)
    (pts ed er em eb : Bool) (contract admin uploader gas backend : String) :
    (SNIP20.init deploy label name symbol decimals seed pts ed er em eb contract admin
        uploader gas backend).initMsg =
      Json.dumps (.obj [("name", .str name), ("symbol", .str symbol),
        ("decimals", .num decimals), ("prng_seed", .str seed),
        ("config", .obj [("public_total_supply", .bool pts), ("enable_deposit", .bool ed),
          ("enable_redeem", .bool er), ("enable_mint", .bool em), ("enable_burn", .bool eb)])])
    ∧ (SNIP20.init deploy label name symbol decimals seed pts ed er em eb contract admin
        uploader gas backend).address =
      deploy ⟨contract,
        (SNIP20.init deploy label name symbol decimals seed pts ed er em eb contract admin
          uploader gas backend).initMsg, label, admin, uploader, gas, backend⟩
    ∧ (SNIP20.init deploy label name symbol decimals seed pts ed er em eb contract admin
        uploader gas backend).contract = contract
    ∧ (SNIP20.init deploy label name symbol decimals seed pts ed er em eb contract admin
        uploader gas backend).label = label
    ∧ (SNIP20.init deploy label name symbol decimals seed pts ed er em eb contract admin
        uploader gas backend).admin = admin
    ∧ (SNIP20.init deploy label name symbol decimals seed pts ed er em eb contract admin
        uploader gas backend).uploader = uploader
    ∧ (SNIP20.init deploy label name symbol decimals seed pts ed er em eb contract admin
        uploader gas backend).gas = gas
    ∧ (SNIP20.init deploy label name symbol decimals seed pts ed er em eb contract admin
        uploader gas backend).backend = backend :=
  ⟨rfl, rfl, rfl, rfl, rfl, rfl, rfl, rfl⟩

/-- C8: every method's emitted request message is a JSON object with
exactly one top-level key naming the contract operation, whose value is an
object of named parameters. -/
theorem single_key_envelope (env : ExecCall → Json) (qenv : QueryCall → Json) (t : SNIP20)
    (accounts : List String) (account recipient address password entropy : String)
    (amount : Int) :
    (∃ ps : List (String × Json), SNIP20.set_minters env t accounts =
      (t, env ⟨t.address, Json.dumps (.obj [("set_minters", .obj ps)]), t.admin, t.backend, none⟩))
    ∧ (∃ ps : List (String × Json), SNIP20.deposit env t account amount =
      (t, env ⟨t.address, Json.dumps (.obj [("deposit", .obj ps)]), account, t.backend, some amount⟩))
    ∧ (∃ ps : List (String × Json), SNIP20.mint env t recipient amount =
      (t, env ⟨t.address, Json.dumps (.obj [("mint", .obj ps)]), t.admin, t.backend, none⟩))
    ∧ (∃ ps : List (String × Json), SNIP20.send env t account recipient amount =
      (t, env ⟨t.address, Json.dumps (.obj [("send", .obj ps)]), account, t.backend, none⟩))
    ∧ (∃ ps : List (String × Json), (SNIP20.set_view_key env t account entropy).2 =
      viewKeyUnwrap (env ⟨t.address, Json.dumps (.obj [("create_viewing_key", .obj ps)]),
        account, t.backend, none⟩))
    ∧ (∃ ps : List (String × Json), (SNIP20.get_balance qenv t address password).2 =
      ((qenv ⟨t.address, Json.dumps (.obj [("balance", .obj ps)])⟩).index "balance").bind
        (fun b => b.index "amount")) :=
  ⟨⟨[("minters", .arr (accounts.map .str))], rfl⟩,
   ⟨[], rfl⟩,
   ⟨[("recipient", .str recipient), ("amount", .str (toString amount))], rfl⟩,
   ⟨[("recipient", .str recipient), ("amount", .str (toString amount))], rfl⟩,
   ⟨[("entropy", .str entropy)], rfl⟩,
   ⟨[("key", .str password), ("address", .str address)], rfl⟩⟩

/-- C9: the constructor sets `view_key` to the empty string and no
operation mutates the instance — in particular `set_view_key` returns the
backend-issued key without storing it, and `address`, `admin` and `backend`
are never modified. -/
theorem methods_preserve_state (deploy : DeployCall → String)
    (label name symbol : String) (decimals : Int) (seed : String)
    (pts ed er em eb : Bool) (contract admin uploader gas backend : String)
    (env : ExecCall → Json) (qenv : QueryCall → Json) (t : SNIP20)
    (accounts : List String) (account recipient address password entropy : String)
    (amount : Int) :
    (SNIP20.init deploy label name symbol decimals seed pts ed er em eb contract admin
        uploader gas backend).view_key = ""
    ∧ (SNIP20.set_minters env t accounts).1 = t
    ∧ (SNIP20.deposit env t account amount).1 = t
    ∧ (SNIP20.mint env t recipient amount).1 = t
    ∧ (SNIP20.send env t account recipient amount).1 = t
    ∧ (SNIP20.set_view_key env t account entropy).1 = t
    ∧ (SNIP20.get_balance qenv t address password).1 = t :=
  ⟨rfl, rfl, rfl, rfl, rfl, rfl, rfl⟩

/-- C10: the message `set_view_key` submits depends only on the entropy,
not on the account: for any two accounts the submitted request strings are
the very same string `msg`, and the two calls differ only in the sender
that signs the transaction. -/
theorem set_view_key_msg_account_independent (t : SNIP20) (entropy A1 A2 : String) :
    ∃ msg : String,
      (∀ env : ExecCall → Json, (SNIP20.set_view_key env t A1 entropy).2 =
        viewKeyUnwrap (env ⟨t.address, msg, A1, t.backend, none⟩))
      ∧ (∀ env : ExecCall → Json, (SNIP20.set_view_key env t A2 entropy).2 =
        viewKeyUnwrap (env ⟨t.address, msg, A2, t.backend, none⟩)) :=
  ⟨Json.dumps (.obj [("create_viewing_key", .obj [("entropy", .str entropy)])]),
   fun _ => rfl, fun _ => rfl⟩
